import Mathlib

/-!
Verification of `homeassistant/components/accuweather/weather.py`
(the AccuWeather weather entity, a pure view adapter over coordinator data).

The Python data values are embedded as a JSON-like inductive `Json`;
fallible dictionary access is embedded in `Except PyErr`, mirroring the
exceptions Python raises (`KeyError`, `IndexError`, `TypeError`).  The
entity's read properties become pure functions of the entity state.
-/

/-- Python exceptions that the embedded operations can raise. -/
inductive PyErr where
  | keyError (k : String)
  | indexError
  | typeError
deriving DecidableEq, Repr

/-- A JSON-like value, standing for the Python objects held in the
coordinator's data mapping.  Python distinguishes `int` and `float`;
floats are represented exactly as rationals (the adapter never computes
with them, it only passes them through). -/
inductive Json where
  | null
  | bool (b : Bool)
  | int (n : Int)
  | num (q : ℚ)
  | str (s : String)
  | arr (xs : List Json)
  | obj (fields : List (String × Json))

/-- Python subscript `j[k]` with a string key: succeeds only on a mapping
that has the key (`KeyError` if the key is absent, `TypeError` when the
value is not a mapping; subscripting a list with a string is a
`TypeError` in Python as well). -/
def Json.get (j : Json) (k : String) : Except PyErr Json :=
  match j with
  | .obj fields =>
    match fields.lookup k with
    | some v => .ok v
    | none => .error (.keyError k)
  | _ => .error .typeError

/-- Python truthiness (`bool(x)`): `None`, `False`, zero, the empty
string, the empty list and the empty mapping are falsy. -/
def Json.truthy : Json → Bool
  | .null => false
  | .bool b => b
  | .int n => n != 0
  | .num q => q != 0
  | .str s => s != ""
  | .arr xs => !xs.isEmpty
  | .obj fs => !fs.isEmpty

/-- Python iteration `for x in j`: a list yields its elements, a mapping
yields its keys, a string yields its one-character substrings, anything
else raises `TypeError`. -/
def Json.iterate : Json → Except PyErr (List Json)
  | .arr xs => .ok xs
  | .obj fs => .ok (fs.map (fun p => Json.str p.1))
  | .str s => .ok (s.toList.map (fun ch => Json.str (String.mk [ch])))
  | _ => .error .typeError

/-- Python membership `j in codes` where `codes` is a list of ints:
numeric equality (`True == 1`, `False == 0`, `21.0 == 21`); values of
non-numeric type are simply not members. -/
def jsonMemIntList (j : Json) (codes : List Int) : Bool :=
  match j with
  | .int n => codes.contains n
  | .bool b => codes.contains (if b then 1 else 0)
  | .num q => q.den == 1 && codes.contains q.num
  | _ => false

/-- The comprehension `[k for k, v in table.items() if src[key] in v]`:
the subscript `src[key]` is re-evaluated on every iteration, so its
failure surfaces only when the table is nonempty. -/
def matchScan (src : Json) (key : String) :
    List (String × List Int) → Except PyErr (List String)
  | [] => .ok []
  | (k, v) :: rest => do
    let icon ← src.get key
    let tail ← matchScan src key rest
    if jsonMemIntList icon v then .ok (k :: tail) else .ok tail

/-- Modelled from the spec: the value of the `API_METRIC` unit-selector
constant imported from `const.py` (the spec's own example snapshot uses
the key `"Metric"`). -/
def API_METRIC : String := "Metric"

/-- Modelled from the spec: the key under which the coordinator's main
data mapping stores the forecast list (`ATTR_FORECAST` from `const.py`). -/
def ATTR_FORECAST : String := "forecast"

/-- Modelled from the spec: the attribution string constant
(`ATTRIBUTION` from `const.py`); only its identity matters here. -/
def ATTRIBUTION : String := "Data provided by AccuWeather"

/-- Modelled from the spec: the coordinator collaborator as seen from the
weather entity — the current data snapshot, a separate parallel forecast
attribute (only its truthiness is consumed by the entity, so it is kept
as an arbitrary value), a stable per-location identity key and device
metadata. -/
structure Coordinator where
  data : Json
  forecast : Json
  location_key : String
  device_info : String

/-- The `AccuWeatherEntity` state after `__init__`: the bound
coordinator and the attributes the constructor copies out. -/
structure AccuWeatherEntity where
  coordinator : Coordinator
  attr_native_precipitation_unit : String
  attr_native_pressure_unit : String
  attr_native_temperature_unit : String
  attr_native_visibility_unit : String
  attr_native_wind_speed_unit : String
  attr_unique_id : String
  attr_attribution : String
  attr_device_info : String

/-- `AccuWeatherEntity.__init__`: binds the coordinator and copies out
the fixed unit declarations, the location key as unique id, the
attribution constant and the device metadata (unit strings are the fixed
values the spec declares: mm, hPa, Celsius, km, km/h). -/
def AccuWeatherEntity.init (coordinator : Coordinator) : AccuWeatherEntity where
  coordinator := coordinator
  attr_native_precipitation_unit := "mm"
  attr_native_pressure_unit := "hPa"
  attr_native_temperature_unit := "°C"
  attr_native_visibility_unit := "km"
  attr_native_wind_speed_unit := "km/h"
  attr_unique_id := coordinator.location_key
  attr_attribution := ATTRIBUTION
  attr_device_info := coordinator.device_info

/-- The `condition` property: the first-match scan of the condition
table against `data["WeatherIcon"]`, with `IndexError` (no match)
recovered to `None`; other errors propagate.  The condition table
(`CONDITION_CLASSES` from `const.py`, not part of the analysed file) is
passed as an explicit ordered association list, matching Python's
insertion-ordered dict iteration. -/
def AccuWeatherEntity.condition (table : List (String × List Int))
    (self : AccuWeatherEntity) : Except PyErr (Option String) := do
  let ms ← matchScan self.coordinator.data "WeatherIcon" table
  .ok ms.head?

/-- The `native_temperature` property:
`data["Temperature"][API_METRIC]["Value"]`, no conversion. -/
def AccuWeatherEntity.native_temperature (self : AccuWeatherEntity) :
    Except PyErr Json := do
  (← (← self.coordinator.data.get "Temperature").get API_METRIC).get "Value"

/-- The `native_pressure` property:
`data["Pressure"][API_METRIC]["Value"]`. -/
def AccuWeatherEntity.native_pressure (self : AccuWeatherEntity) :
    Except PyErr Json := do
  (← (← self.coordinator.data.get "Pressure").get API_METRIC).get "Value"

/-- The `humidity` property: `data["RelativeHumidity"]`. -/
def AccuWeatherEntity.humidity (self : AccuWeatherEntity) :
    Except PyErr Json :=
  self.coordinator.data.get "RelativeHumidity"

/-- The `native_wind_speed` property:
`data["Wind"]["Speed"][API_METRIC]["Value"]`. -/
def AccuWeatherEntity.native_wind_speed (self : AccuWeatherEntity) :
    Except PyErr Json := do
  (← (← (← self.coordinator.data.get "Wind").get "Speed").get API_METRIC).get "Value"

/-- The `wind_bearing` property: `data["Wind"]["Direction"]["Degrees"]`. -/
def AccuWeatherEntity.wind_bearing (self : AccuWeatherEntity) :
    Except PyErr Json := do
  (← (← self.coordinator.data.get "Wind").get "Direction").get "Degrees"

/-- The `native_visibility` property:
`data["Visibility"][API_METRIC]["Value"]`. -/
def AccuWeatherEntity.native_visibility (self : AccuWeatherEntity) :
    Except PyErr Json := do
  (← (← self.coordinator.data.get "Visibility").get API_METRIC).get "Value"

/-- Left-pad the decimal rendering of a natural number with zeros to
width `w`. -/
def padNat (w : Nat) (n : Nat) : String :=
  let s := toString n
  String.mk (List.replicate (w - s.length) (Char.ofNat 48)) ++ s

/-- Civil date from a count of days since 1970-01-01 (proleptic
Gregorian calendar): returns (year, month, day). -/
def civilFromDays (z0 : Int) : Int × Nat × Nat :=
  let z := z0 + 719468
  let era := z.fdiv 146097
  let doe := (z - era * 146097).toNat
  let yoe := (doe - doe / 1460 + doe / 36524 - doe / 146096) / 365
  let doy := doe - (365 * yoe + yoe / 4 - yoe / 100)
  let mp := (5 * doy + 2) / 153
  let d := doy - (153 * mp + 2) / 5 + 1
  let m := if mp < 10 then mp + 3 else mp - 9
  ((yoe : Int) + era * 400 + (if m ≤ 2 then 1 else 0), m, d)

/-- Modelled from the spec: `utc_from_timestamp(t).isoformat()` from
`homeassistant.util.dt` (not part of the analysed file) — the entry's
epoch-seconds timestamp rendered as an ISO-8601 instant in UTC.
`EpochDate` is an integer count of seconds in the vendor payload, so
only integral timestamps are modelled. -/
def utc_from_timestamp_isoformat (t : Int) : String :=
  let days := t.fdiv 86400
  let secs := (t - days * 86400).toNat
  let c := civilFromDays days
  padNat 4 c.1.toNat ++ "-" ++ padNat 2 c.2.1 ++ "-" ++ padNat 2 c.2.2 ++
    "T" ++ padNat 2 (secs / 3600) ++ ":" ++ padNat 2 (secs % 3600 / 60) ++
    ":" ++ padNat 2 (secs % 60) ++ "+00:00"

/-- The epoch-seconds value accepted by `utc_from_timestamp`: an int (or
a bool, which Python treats as 0/1); anything else raises `TypeError`.
Fractional float timestamps are outside the modelled domain. -/
def Json.asTimestamp : Json → Except PyErr Int
  | .int n => .ok n
  | .bool b => .ok (if b then 1 else 0)
  | .num q => if q.den == 1 then .ok q.num else .error .typeError
  | _ => .error .typeError

/-- One remapped forecast day, keyed by the host's canonical forecast
attribute names (`ATTR_FORECAST_*`). -/
structure ForecastEntry where
  datetime : String
  native_temperature : Json
  native_templow : Json
  native_precipitation : Json
  precipitation_probability : Json
  native_wind_speed : Json
  wind_bearing : Json
  condition : String

/-- The dict literal built for one `item` of the forecast list, with the
value expressions evaluated in source order; the per-day condition is
`[k for k, v in CONDITION_CLASSES.items() if item["IconDay"] in v][0]`,
whose `IndexError` on a classification miss is NOT caught here. -/
def forecastItem (table : List (String × List Int)) (item : Json) :
    Except PyErr ForecastEntry := do
  let epoch ← (← item.get "EpochDate").asTimestamp
  let tmax ← (← item.get "TemperatureMax").get "Value"
  let tmin ← (← item.get "TemperatureMin").get "Value"
  let precip ← (← item.get "TotalLiquidDay").get "Value"
  let prob ← item.get "PrecipitationProbabilityDay"
  let wspd ← (← (← item.get "WindDay").get "Speed").get "Value"
  let wbear ← (← (← item.get "WindDay").get "Direction").get "Degrees"
  let ms ← matchScan item "IconDay" table
  match ms.head? with
  | some cond =>
    .ok {
      datetime := utc_from_timestamp_isoformat epoch
      native_temperature := tmax
      native_templow := tmin
      native_precipitation := precip
      precipitation_probability := prob
      native_wind_speed := wspd
      wind_bearing := wbear
      condition := cond
    }
  | none => .error .indexError

/-- The list comprehension `[f item for item in items]` in the `Except`
monad: elements are produced in order and the first failure aborts the
whole comprehension. -/
def mapME (f : α → Except PyErr β) : List α → Except PyErr (List β)
  | [] => .ok []
  | x :: xs => do
    let y ← f x
    let ys ← mapME f xs
    .ok (y :: ys)

/-- The `forecast` property: absent (`None`) when the coordinator's
forecast attribute is falsy, otherwise the remapping comprehension over
`data[ATTR_FORECAST]`. -/
def AccuWeatherEntity.forecast (table : List (String × List Int))
    (self : AccuWeatherEntity) : Except PyErr (Option (List ForecastEntry)) := do
  if !self.coordinator.forecast.truthy then
    .ok none
  else do
    let src ← self.coordinator.data.get ATTR_FORECAST
    let items ← src.iterate
    let entries ← mapME (forecastItem table) items
    .ok (some entries)

/-- One observed call of the `forecast` property: the property body
contains no assignment, so the entity state after the call is the state
before it; the pair returned is (result, state after the call). -/
def AccuWeatherEntity.forecast_call (table : List (String × List Int))
    (self : AccuWeatherEntity) :
    Except PyErr (Option (List ForecastEntry)) × AccuWeatherEntity :=
  (AccuWeatherEntity.forecast table self, self)

theorem matchScan_ok {src : Json} {key : String} {icon : Json}
    (h : src.get key = .ok icon) (table : List (String × List Int)) :
    matchScan src key table =
      .ok ((table.filter fun p => jsonMemIntList icon p.2).map Prod.fst) := by
  induction table with
  | nil => rfl
  | cons p rest ih =>
    obtain ⟨k, v⟩ := p
    simp only [matchScan, h, bind, Except.bind, ih, List.filter_cons]
    by_cases hm : jsonMemIntList icon v
    · simp [hm]
    · simp [hm]

theorem matchScan_error {src : Json} {key : String} {e : PyErr}
    (h : src.get key = .error e) {table : List (String × List Int)}
    (htab : table ≠ []) : matchScan src key table = .error e := by
  cases table with
  | nil => exact absurd rfl htab
  | cons p rest =>
    obtain ⟨k, v⟩ := p
    simp only [matchScan, h, bind, Except.bind]

theorem mapME_ok_length {f : α → Except PyErr β} {xs : List α} {ys : List β}
    (h : mapME f xs = .ok ys) : ys.length = xs.length := by
  induction xs generalizing ys with
  | nil =>
    simp only [mapME] at h
    cases h
    rfl
  | cons x xs ih =>
    simp only [mapME, bind, Except.bind] at h
    cases hx : f x with
    | error e => rw [hx] at h; cases h
    | ok y =>
      rw [hx] at h
      cases hxs : mapME f xs with
      | error e => rw [hxs] at h; cases h
      | ok ys0 =>
        rw [hxs] at h
        cases h
        simp [ih hxs]

theorem mapME_ok_get {f : α → Except PyErr β} {xs : List α} {ys : List β}
    (h : mapME f xs = .ok ys) (i : Nat) :
    (xs.get? i).map f = (ys.get? i).map Except.ok := by
  induction xs generalizing ys i with
  | nil =>
    simp only [mapME] at h
    cases h
    rfl
  | cons x xs ih =>
    simp only [mapME, bind, Except.bind] at h
    cases hx : f x with
    | error e => rw [hx] at h; cases h
    | ok y =>
      rw [hx] at h
      cases hxs : mapME f xs with
      | error e => rw [hxs] at h; cases h
      | ok ys0 =>
        rw [hxs] at h
        cases h
        cases i with
        | zero => simpa using hx
        | succ j => simpa using ih hxs j

/-- Claim C3: for a snapshot whose icon code is contained in the code set
of at least one table entry, `condition` returns the first matching
canonical name in table-iteration order (earlier-declared name wins);
for a snapshot whose icon code matches no entry it returns `None` and
never raises. -/
theorem condition_first_match (table : List (String × List Int))
    (self : AccuWeatherEntity) (icon : Json)
    (h : self.coordinator.data.get "WeatherIcon" = .ok icon) :
    (∀ pre n cs post, table = pre ++ (n, cs) :: post →
        jsonMemIntList icon cs = true →
        (∀ p ∈ pre, jsonMemIntList icon p.2 = false) →
        AccuWeatherEntity.condition table self = .ok (some n)) ∧
    ((∀ p ∈ table, jsonMemIntList icon p.2 = false) →
        AccuWeatherEntity.condition table self = .ok none) := by
  constructor
  · rintro pre n cs post rfl hmem hpre
    simp only [AccuWeatherEntity.condition, matchScan_ok h, bind, Except.bind]
    have hnil : pre.filter (fun p => jsonMemIntList icon p.2) = [] := by
      rw [List.filter_eq_nil_iff]
      intro p hp
      simp [hpre p hp]
    rw [List.filter_append, hnil]
    simp [List.filter_cons, hmem]
  · intro hall
    simp only [AccuWeatherEntity.condition, matchScan_ok h, bind, Except.bind]
    have hnil : table.filter (fun p => jsonMemIntList icon p.2) = [] := by
      rw [List.filter_eq_nil_iff]
      intro p hp
      simp [hall p hp]
    rw [hnil]
    rfl

/-- Witness for C3 at a concrete snapshot: icon code 1 is listed under
both names, the earlier-declared one wins. -/
theorem condition_first_match_witness :
    AccuWeatherEntity.condition [("sunny", [1, 2, 5]), ("cloudy", [1])]
      (AccuWeatherEntity.init
        ⟨Json.obj [("WeatherIcon", Json.int 1)], Json.bool true, "loc", "dev"⟩) =
      .ok (some "sunny") :=
  (condition_first_match _ _ (Json.int 1) (by rfl)).1 [] "sunny" [1, 2, 5]
    [("cloudy", [1])] rfl (by decide) (by simp)

/-- Claim C7: `native_temperature` returns exactly the value stored at
the fixed nested path Temperature → Metric → Value, unchanged. -/
theorem native_temperature_passthrough (self : AccuWeatherEntity)
    (t m v : Json)
    (h1 : self.coordinator.data.get "Temperature" = .ok t)
    (h2 : t.get API_METRIC = .ok m)
    (h3 : m.get "Value" = .ok v) :
    self.native_temperature = .ok v := by
  simp [AccuWeatherEntity.native_temperature, h1, h2, h3, bind, Except.bind]

/-- Witness for C7: on the spec's example snapshot the float 21.5 comes
back unchanged. -/
theorem native_temperature_passthrough_witness :
    (AccuWeatherEntity.init
      ⟨Json.obj [("Temperature", Json.obj [("Metric",
          Json.obj [("Value", Json.num (21.5 : ℚ))])])],
        Json.bool true, "loc", "dev"⟩).native_temperature =
      .ok (Json.num (21.5 : ℚ)) :=
  native_temperature_passthrough _ _ _ _ rfl rfl rfl

/-- Claim C8: a call of the `forecast` property leaves the entity state
(and with it the coordinator's data) unchanged, and a second call
against the unchanged state returns the same result. -/
theorem forecast_idempotent_pure (table : List (String × List Int))
    (self : AccuWeatherEntity) :
    (self.forecast_call table).2 = self ∧
    ((self.forecast_call table).2.forecast_call table).1 =
      (self.forecast_call table).1 ∧
    ((self.forecast_call table).2.forecast_call table).2 = self :=
  ⟨rfl, rfl, rfl⟩

/-- Claim C9: the constructor sets the unique id to the coordinator's
location key, so distinct location keys give distinct unique ids. -/
theorem unique_id_eq_location_key (c1 c2 : Coordinator) :
    (AccuWeatherEntity.init c1).attr_unique_id = c1.location_key ∧
    (c1.location_key ≠ c2.location_key →
      (AccuWeatherEntity.init c1).attr_unique_id ≠
        (AccuWeatherEntity.init c2).attr_unique_id) :=
  ⟨rfl, fun h => h⟩

/-- Witness for C9 at two concrete coordinators with distinct keys. -/
theorem unique_id_eq_location_key_witness :
    (AccuWeatherEntity.init ⟨Json.null, Json.null, "111", "d1"⟩).attr_unique_id
        = "111" ∧
    (AccuWeatherEntity.init ⟨Json.null, Json.null, "111", "d1"⟩).attr_unique_id
        ≠ (AccuWeatherEntity.init ⟨Json.null, Json.null, "222", "d2"⟩).attr_unique_id :=
  ⟨(unique_id_eq_location_key ⟨Json.null, Json.null, "111", "d1"⟩
      ⟨Json.null, Json.null, "222", "d2"⟩).1,
    (unique_id_eq_location_key ⟨Json.null, Json.null, "111", "d1"⟩
      ⟨Json.null, Json.null, "222", "d2"⟩).2 (by decide)⟩

theorem except_bind_ok {α β : Type} {x : Except PyErr α}
    {f : α → Except PyErr β} {b : β} (h : Except.bind x f = .ok b) :
    ∃ a, x = .ok a ∧ f a = .ok b := by
  cases x with
  | error e => simp [Except.bind] at h
  | ok a => exact ⟨a, rfl, h⟩

theorem matchScan_ok_inv {src : Json} {key : String}
    {table : List (String × List Int)} {ms : List String}
    (h : matchScan src key table = .ok ms) (hne : ms ≠ []) :
    ∃ icon, src.get key = .ok icon ∧
      ms = (table.filter fun p => jsonMemIntList icon p.2).map Prod.fst := by
  cases table with
  | nil =>
    simp only [matchScan] at h
    cases h
    exact absurd rfl hne
  | cons p rest =>
    cases hg : src.get key with
    | error e => rw [matchScan_error hg (by simp)] at h; cases h
    | ok icon =>
      refine ⟨icon, rfl, ?_⟩
      rw [matchScan_ok hg] at h
      cases h
      rfl

set_option maxHeartbeats 2000000 in
theorem forecastItem_ok_inv {table : List (String × List Int)} {item : Json}
    {e : ForecastEntry} (hok : forecastItem table item = .ok e) :
    (∃ ts n, item.get "EpochDate" = .ok ts ∧ ts.asTimestamp = .ok n ∧
      e.datetime = utc_from_timestamp_isoformat n) ∧
    (∃ icon, item.get "IconDay" = .ok icon ∧
      ((table.filter fun p => jsonMemIntList icon p.2).map Prod.fst).head?
        = some e.condition) := by
  simp only [forecastItem, bind] at hok
  obtain ⟨ts, h1, hok⟩ := except_bind_ok hok
  obtain ⟨n, h2, hok⟩ := except_bind_ok hok
  obtain ⟨a3, h3, hok⟩ := except_bind_ok hok
  obtain ⟨tmax, h4, hok⟩ := except_bind_ok hok
  obtain ⟨a5, h5, hok⟩ := except_bind_ok hok
  obtain ⟨tmin, h6, hok⟩ := except_bind_ok hok
  obtain ⟨a7, h7, hok⟩ := except_bind_ok hok
  obtain ⟨precip, h8, hok⟩ := except_bind_ok hok
  obtain ⟨prob, h9, hok⟩ := except_bind_ok hok
  obtain ⟨a10, h10, hok⟩ := except_bind_ok hok
  obtain ⟨a11, h11, hok⟩ := except_bind_ok hok
  obtain ⟨wspd, h12, hok⟩ := except_bind_ok hok
  obtain ⟨a13, h13, hok⟩ := except_bind_ok hok
  obtain ⟨a14, h14, hok⟩ := except_bind_ok hok
  obtain ⟨wbear, h15, hok⟩ := except_bind_ok hok
  obtain ⟨ms, h16, hok⟩ := except_bind_ok hok
  cases hh : ms.head? with
  | none => rw [hh] at hok; cases hok
  | some cond =>
    rw [hh] at hok
    cases hok
    constructor
    · exact ⟨ts, n, h1, h2, rfl⟩
    · have hne : ms ≠ [] := by
        intro hnil
        rw [hnil] at hh
        cases hh
      obtain ⟨icon, hg, hms⟩ := matchScan_ok_inv h16 hne
      refine ⟨icon, hg, ?_⟩
      rw [← hms, hh]

/-- A fully populated sample forecast day with epoch timestamp 0 and a
vendor icon code listed in `sampleTable`. -/
def sampleItem : Json :=
  Json.obj [
    ("EpochDate", Json.int 0),
    ("TemperatureMax", Json.obj [("Value", Json.int 30)]),
    ("TemperatureMin", Json.obj [("Value", Json.int 20)]),
    ("TotalLiquidDay", Json.obj [("Value", Json.int 1)]),
    ("PrecipitationProbabilityDay", Json.int 40),
    ("WindDay", Json.obj [
      ("Speed", Json.obj [("Value", Json.int 10)]),
      ("Direction", Json.obj [("Degrees", Json.int 180)])]),
    ("IconDay", Json.int 1)]

/-- A small concrete condition table for sample runs. -/
def sampleTable : List (String × List Int) := [("sunny", [1, 2, 5])]

/-- The remapped record `forecastItem sampleTable sampleItem` produces. -/
def sampleEntry : ForecastEntry where
  datetime := "1970-01-01T00:00:00+00:00"
  native_temperature := Json.int 30
  native_templow := Json.int 20
  native_precipitation := Json.int 1
  precipitation_probability := Json.int 40
  native_wind_speed := Json.int 10
  wind_bearing := Json.int 180
  condition := "sunny"

/-- `sampleItem` with its icon code replaced by 0, which no entry of
`sampleTable` lists. -/
def missItem : Json :=
  Json.obj [
    ("EpochDate", Json.int 0),
    ("TemperatureMax", Json.obj [("Value", Json.int 30)]),
    ("TemperatureMin", Json.obj [("Value", Json.int 20)]),
    ("TotalLiquidDay", Json.obj [("Value", Json.int 1)]),
    ("PrecipitationProbabilityDay", Json.int 40),
    ("WindDay", Json.obj [
      ("Speed", Json.obj [("Value", Json.int 10)]),
      ("Direction", Json.obj [("Degrees", Json.int 180)])]),
    ("IconDay", Json.int 0)]

/-- Claim C6: each produced forecast entry's time field is the entry's
epoch-seconds timestamp rendered as an ISO-8601 instant in UTC, and
epoch 0 renders as "1970-01-01T00:00:00+00:00". -/
theorem forecast_time_iso (table : List (String × List Int)) (item : Json)
    (e : ForecastEntry) (ts : Json) (n : Int)
    (hts : item.get "EpochDate" = .ok ts)
    (hn : ts.asTimestamp = .ok n)
    (hok : forecastItem table item = .ok e) :
    e.datetime = utc_from_timestamp_isoformat n ∧
    utc_from_timestamp_isoformat 0 = "1970-01-01T00:00:00+00:00" := by
  obtain ⟨⟨ts2, n2, h1, h2, h3⟩, -⟩ := forecastItem_ok_inv hok
  rw [hts] at h1
  injection h1 with h1
  subst h1
  rw [hn] at h2
  injection h2 with h2
  subst h2
  exact ⟨h3, by decide⟩

/-- Witness for C6 on `sampleItem`: the produced entry's time is the
rendering of epoch 0, which is "1970-01-01T00:00:00+00:00". -/
theorem forecast_time_iso_witness :
    sampleEntry.datetime = utc_from_timestamp_isoformat 0 ∧
    utc_from_timestamp_isoformat 0 = "1970-01-01T00:00:00+00:00" :=
  forecast_time_iso sampleTable sampleItem sampleEntry (Json.int 0) 0
    (by rfl) (by rfl) (by rfl)

/-- Counterexample for C2: a forecast entry whose icon code matches no
table entry makes `forecast` raise `IndexError` instead of yielding an
absent condition — the miss IS propagated as a failure. -/
theorem forecast_condition_miss_counterexample :
    AccuWeatherEntity.forecast sampleTable
      (AccuWeatherEntity.init
        ⟨Json.obj [("forecast", Json.arr [missItem])],
          Json.bool true, "loc", "dev"⟩) = .error .indexError := by
  rfl

/-- Claim C2 (amended): `forecast` resolves each entry's condition with
the same first-match table-order rule as `condition`, but a
classification miss is not recovered there: the per-entry comprehension
indexes its first element without the `IndexError` handler, so a miss
makes the whole call fail. -/
theorem forecast_condition_first_match_or_raise
    (table : List (String × List Int)) (item : Json) (icon : Json)
    (hicon : item.get "IconDay" = .ok icon) :
    ((table.filter fun p => jsonMemIntList icon p.2) = [] →
      (forecastItem table item).isOk = false) ∧
    (∀ e, forecastItem table item = .ok e →
      ((table.filter fun p => jsonMemIntList icon p.2).map Prod.fst).head?
        = some e.condition) := by
  constructor
  · intro hmiss
    cases hfi : forecastItem table item with
    | error err => rfl
    | ok e =>
      obtain ⟨-, icon2, hg, hh⟩ := forecastItem_ok_inv hfi
      rw [hicon] at hg
      injection hg with hg
      subst hg
      rw [hmiss] at hh
      cases hh
  · intro e hfi
    obtain ⟨-, icon2, hg, hh⟩ := forecastItem_ok_inv hfi
    rw [hicon] at hg
    injection hg with hg
    subst hg
    exact hh

/-- Witness for the amended C2 on `missItem`: icon code 0 matches no
entry of `sampleTable`, and the per-entry remapping fails. -/
theorem forecast_condition_first_match_or_raise_witness :
    (forecastItem sampleTable missItem).isOk = false :=
  (forecast_condition_first_match_or_raise sampleTable missItem (Json.int 0)
    (by rfl)).1 (by rfl)

theorem forecast_falsy {table : List (String × List Int)}
    {self : AccuWeatherEntity}
    (hf : self.coordinator.forecast.truthy = false) :
    AccuWeatherEntity.forecast table self = .ok none := by
  simp [AccuWeatherEntity.forecast, hf]

theorem forecast_truthy {table : List (String × List Int)}
    {self : AccuWeatherEntity}
    (ht : self.coordinator.forecast.truthy = true) :
    AccuWeatherEntity.forecast table self =
      Except.bind (self.coordinator.data.get ATTR_FORECAST) (fun src =>
        Except.bind src.iterate (fun items =>
          Except.bind (mapME (forecastItem table) items) (fun entries =>
            .ok (some entries)))) := by
  simp only [AccuWeatherEntity.forecast, ht, Bool.not_true, Bool.false_eq_true,
    if_false, bind]

theorem forecast_ok_some_inv {table : List (String × List Int)}
    {self : AccuWeatherEntity} {items : List Json} {l : List ForecastEntry}
    (hget : self.coordinator.data.get ATTR_FORECAST = .ok (Json.arr items))
    (hok : AccuWeatherEntity.forecast table self = .ok (some l)) :
    mapME (forecastItem table) items = .ok l := by
  cases ht : self.coordinator.forecast.truthy with
  | false =>
    rw [forecast_falsy ht] at hok
    simp at hok
  | true =>
    rw [forecast_truthy ht, hget] at hok
    obtain ⟨src, h1, hok⟩ := except_bind_ok hok
    injection h1 with h1
    subst h1
    obtain ⟨items0, h2, hok⟩ := except_bind_ok hok
    simp only [Json.iterate] at h2
    injection h2 with h2
    subst h2
    obtain ⟨l2, h3, h4⟩ := except_bind_ok hok
    injection h4 with h4
    injection h4 with h4
    subst h4
    exact h3

/-- Counterexample for C1: a state whose data mapping holds the forecast
key with an empty list still yields absent when the coordinator's
forecast attribute is falsy — so the empty-list case is not what the
claim says it is, and absence is not reserved to a missing key. -/
theorem forecast_empty_counterexample :
    (AccuWeatherEntity.init
      ⟨Json.obj [("forecast", Json.arr [])], Json.bool false, "loc", "dev"⟩
      ).coordinator.data.get ATTR_FORECAST = .ok (Json.arr []) ∧
    AccuWeatherEntity.forecast sampleTable
      (AccuWeatherEntity.init
        ⟨Json.obj [("forecast", Json.arr [])], Json.bool false, "loc", "dev"⟩)
      = .ok none :=
  ⟨rfl, rfl⟩

/-- Claim C1 (amended): absence is decided by the truthiness of the
coordinator's forecast attribute, not by the data's forecast key: when
the attribute is truthy and the data's forecast list is empty,
`forecast` returns the empty sequence (length 0); when the attribute is
falsy it returns absent regardless of the key's presence. -/
theorem forecast_empty_list_amended (table : List (String × List Int))
    (self : AccuWeatherEntity) :
    (self.coordinator.forecast.truthy = true →
      self.coordinator.data.get ATTR_FORECAST = .ok (Json.arr []) →
      AccuWeatherEntity.forecast table self = .ok (some [])) ∧
    (self.coordinator.forecast.truthy = false →
      AccuWeatherEntity.forecast table self = .ok none) := by
  constructor
  · intro ht hget
    rw [forecast_truthy ht, hget]
    rfl
  · intro hf
    exact forecast_falsy hf

/-- Witness for the amended C1: truthy attribute plus empty stored list
gives the empty sequence. -/
theorem forecast_empty_list_amended_witness :
    AccuWeatherEntity.forecast sampleTable
      (AccuWeatherEntity.init
        ⟨Json.obj [("forecast", Json.arr [])], Json.bool true, "loc", "dev"⟩)
      = .ok (some []) :=
  (forecast_empty_list_amended sampleTable
    (AccuWeatherEntity.init
      ⟨Json.obj [("forecast", Json.arr [])], Json.bool true, "loc", "dev"⟩)).1
    (by rfl) (by rfl)

/-- Claim C4: when the data mapping provides a forecast list and
`forecast` returns a sequence, that sequence has the input list's
length and its entries correspond index-by-index (order preserved, one
entry per input day). -/
theorem forecast_length_order (table : List (String × List Int))
    (self : AccuWeatherEntity) (items : List Json) (l : List ForecastEntry)
    (hget : self.coordinator.data.get ATTR_FORECAST = .ok (Json.arr items))
    (hok : AccuWeatherEntity.forecast table self = .ok (some l)) :
    l.length = items.length ∧
    ∀ i : Nat, (items.get? i).map (forecastItem table)
      = (l.get? i).map Except.ok := by
  have hm := forecast_ok_some_inv hget hok
  exact ⟨mapME_ok_length hm, mapME_ok_get hm⟩

/-- Witness for C4 on a one-day forecast list, with the pointwise
correspondence read off at index 0. -/
theorem forecast_length_order_witness :
    [sampleEntry].length = [sampleItem].length ∧
    ([sampleItem].get? 0).map (forecastItem sampleTable)
      = ([sampleEntry].get? 0).map Except.ok :=
  ⟨(forecast_length_order sampleTable
      (AccuWeatherEntity.init
        ⟨Json.obj [("forecast", Json.arr [sampleItem])],
          Json.bool true, "loc", "dev"⟩)
      [sampleItem] [sampleEntry] (by rfl) (by rfl)).1,
    (forecast_length_order sampleTable
      (AccuWeatherEntity.init
        ⟨Json.obj [("forecast", Json.arr [sampleItem])],
          Json.bool true, "loc", "dev"⟩)
      [sampleItem] [sampleEntry] (by rfl) (by rfl)).2 0⟩

/-- Claim C5: an expected nested path absent or of the wrong type
surfaces as the lookup/type failure at the point of access — at any
depth of each operation's fixed path — for every scalar read and for
`condition`; in particular a snapshot missing the current-icon key
makes `condition` raise (the table scan being nonempty) rather than
return absent. -/
theorem shape_mismatch_surfaces (table : List (String × List Int))
    (self : AccuWeatherEntity) (e : PyErr) :
    ((self.coordinator.data.get "Temperature" = .error e →
        self.native_temperature = .error e) ∧
      (∀ t, self.coordinator.data.get "Temperature" = .ok t →
        t.get API_METRIC = .error e → self.native_temperature = .error e) ∧
      (∀ t m, self.coordinator.data.get "Temperature" = .ok t →
        t.get API_METRIC = .ok m → m.get "Value" = .error e →
        self.native_temperature = .error e)) ∧
    ((self.coordinator.data.get "Pressure" = .error e →
        self.native_pressure = .error e) ∧
      (∀ t, self.coordinator.data.get "Pressure" = .ok t →
        t.get API_METRIC = .error e → self.native_pressure = .error e) ∧
      (∀ t m, self.coordinator.data.get "Pressure" = .ok t →
        t.get API_METRIC = .ok m → m.get "Value" = .error e →
        self.native_pressure = .error e)) ∧
    (self.coordinator.data.get "RelativeHumidity" = .error e →
      self.humidity = .error e) ∧
    ((self.coordinator.data.get "Wind" = .error e →
        self.native_wind_speed = .error e) ∧
      (∀ w, self.coordinator.data.get "Wind" = .ok w →
        w.get "Speed" = .error e → self.native_wind_speed = .error e) ∧
      (∀ w s, self.coordinator.data.get "Wind" = .ok w →
        w.get "Speed" = .ok s → s.get API_METRIC = .error e →
        self.native_wind_speed = .error e) ∧
      (∀ w s m, self.coordinator.data.get "Wind" = .ok w →
        w.get "Speed" = .ok s → s.get API_METRIC = .ok m →
        m.get "Value" = .error e → self.native_wind_speed = .error e)) ∧
    ((self.coordinator.data.get "Wind" = .error e →
        self.wind_bearing = .error e) ∧
      (∀ w, self.coordinator.data.get "Wind" = .ok w →
        w.get "Direction" = .error e → self.wind_bearing = .error e) ∧
      (∀ w d, self.coordinator.data.get "Wind" = .ok w →
        w.get "Direction" = .ok d → d.get "Degrees" = .error e →
        self.wind_bearing = .error e)) ∧
    ((self.coordinator.data.get "Visibility" = .error e →
        self.native_visibility = .error e) ∧
      (∀ t, self.coordinator.data.get "Visibility" = .ok t →
        t.get API_METRIC = .error e → self.native_visibility = .error e) ∧
      (∀ t m, self.coordinator.data.get "Visibility" = .ok t →
        t.get API_METRIC = .ok m → m.get "Value" = .error e →
        self.native_visibility = .error e)) ∧
    (table ≠ [] → self.coordinator.data.get "WeatherIcon" = .error e →
      AccuWeatherEntity.condition table self = .error e) := by
  refine ⟨⟨?_, ?_, ?_⟩, ⟨?_, ?_, ?_⟩, ?_, ⟨?_, ?_, ?_, ?_⟩, ⟨?_, ?_, ?_⟩,
    ⟨?_, ?_, ?_⟩, ?_⟩
  · intro h
    simp [AccuWeatherEntity.native_temperature, h, bind, Except.bind]
  · intro t h1 h2
    simp [AccuWeatherEntity.native_temperature, h1, h2, bind, Except.bind]
  · intro t m h1 h2 h3
    simp [AccuWeatherEntity.native_temperature, h1, h2, h3, bind, Except.bind]
  · intro h
    simp [AccuWeatherEntity.native_pressure, h, bind, Except.bind]
  · intro t h1 h2
    simp [AccuWeatherEntity.native_pressure, h1, h2, bind, Except.bind]
  · intro t m h1 h2 h3
    simp [AccuWeatherEntity.native_pressure, h1, h2, h3, bind, Except.bind]
  · intro h
    simp [AccuWeatherEntity.humidity, h]
  · intro h
    simp [AccuWeatherEntity.native_wind_speed, h, bind, Except.bind]
  · intro w h1 h2
    simp [AccuWeatherEntity.native_wind_speed, h1, h2, bind, Except.bind]
  · intro w s h1 h2 h3
    simp [AccuWeatherEntity.native_wind_speed, h1, h2, h3, bind, Except.bind]
  · intro w s m h1 h2 h3 h4
    simp [AccuWeatherEntity.native_wind_speed, h1, h2, h3, h4, bind, Except.bind]
  · intro h
    simp [AccuWeatherEntity.wind_bearing, h, bind, Except.bind]
  · intro w h1 h2
    simp [AccuWeatherEntity.wind_bearing, h1, h2, bind, Except.bind]
  · intro w d h1 h2 h3
    simp [AccuWeatherEntity.wind_bearing, h1, h2, h3, bind, Except.bind]
  · intro h
    simp [AccuWeatherEntity.native_visibility, h, bind, Except.bind]
  · intro t h1 h2
    simp [AccuWeatherEntity.native_visibility, h1, h2, bind, Except.bind]
  · intro t m h1 h2 h3
    simp [AccuWeatherEntity.native_visibility, h1, h2, h3, bind, Except.bind]
  · intro htab h
    simp [AccuWeatherEntity.condition, matchScan_error h htab, bind, Except.bind]

/-- Witness for C5: a top-level missing key (`Temperature` absent), a
wrong-type value one level down (`Temperature` bound to an int, so the
second subscript is a `TypeError`), a missing key at the bottom of the
path (`Metric` present but empty, so `Value` is a `KeyError`), and the
missing current-icon key making `condition` raise. -/
theorem shape_mismatch_surfaces_witness :
    (AccuWeatherEntity.init
      ⟨Json.obj [], Json.bool true, "loc", "dev"⟩).native_temperature
      = .error (.keyError "Temperature") ∧
    (AccuWeatherEntity.init
      ⟨Json.obj [("Temperature", Json.int 5)],
        Json.bool true, "loc", "dev"⟩).native_temperature
      = .error .typeError ∧
    (AccuWeatherEntity.init
      ⟨Json.obj [("Temperature", Json.obj [("Metric", Json.obj [])])],
        Json.bool true, "loc", "dev"⟩).native_temperature
      = .error (.keyError "Value") ∧
    AccuWeatherEntity.condition sampleTable
      (AccuWeatherEntity.init ⟨Json.obj [], Json.bool true, "loc", "dev"⟩)
      = .error (.keyError "WeatherIcon") :=
  ⟨(shape_mismatch_surfaces sampleTable
      (AccuWeatherEntity.init ⟨Json.obj [], Json.bool true, "loc", "dev"⟩)
      (.keyError "Temperature")).1.1 (by rfl),
    (shape_mismatch_surfaces sampleTable
      (AccuWeatherEntity.init
        ⟨Json.obj [("Temperature", Json.int 5)],
          Json.bool true, "loc", "dev"⟩)
      .typeError).1.2.1 (Json.int 5) (by rfl) (by rfl),
    (shape_mismatch_surfaces sampleTable
      (AccuWeatherEntity.init
        ⟨Json.obj [("Temperature", Json.obj [("Metric", Json.obj [])])],
          Json.bool true, "loc", "dev"⟩)
      (.keyError "Value")).1.2.2 (Json.obj [("Metric", Json.obj [])])
      (Json.obj []) (by rfl) (by rfl) (by rfl),
    (shape_mismatch_surfaces sampleTable
      (AccuWeatherEntity.init ⟨Json.obj [], Json.bool true, "loc", "dev"⟩)
      (.keyError "WeatherIcon")).2.2.2.2.2.2 (by simp [sampleTable]) (by rfl)⟩

/-- Claim C10: `forecast` decides presence by the truthiness of the
coordinator's separate forecast attribute but builds its entries from
the list under the data mapping's forecast key: with a truthy attribute
the output length equals the data list's length, and a data mapping
lacking the forecast key makes the call fail with that lookup error
even though the attribute is truthy. -/
theorem forecast_gate_attr_vs_data (table : List (String × List Int))
    (self : AccuWeatherEntity)
    (ht : self.coordinator.forecast.truthy = true) :
    (∀ items l, self.coordinator.data.get ATTR_FORECAST = .ok (Json.arr items) →
      AccuWeatherEntity.forecast table self = .ok (some l) →
      l.length = items.length) ∧
    (∀ e, self.coordinator.data.get ATTR_FORECAST = .error e →
      AccuWeatherEntity.forecast table self = .error e) := by
  constructor
  · intro items l hget hok
    exact mapME_ok_length (forecast_ok_some_inv hget hok)
  · intro e hget
    rw [forecast_truthy ht, hget]
    rfl

/-- Witness for C10: the forecast attribute is truthy but the data
mapping lacks the forecast key, and the call fails with that key's
lookup error. -/
theorem forecast_gate_attr_vs_data_witness :
    AccuWeatherEntity.forecast sampleTable
      (AccuWeatherEntity.init ⟨Json.obj [], Json.bool true, "loc", "dev"⟩)
      = .error (.keyError "forecast") :=
  (forecast_gate_attr_vs_data sampleTable
    (AccuWeatherEntity.init ⟨Json.obj [], Json.bool true, "loc", "dev"⟩)
    (by rfl)).2 (.keyError "forecast") (by rfl)
